import Mathlib

/-!
Verification of the unified multi-provider storage upload coordinator
(`bots/bot_controller/unified_storage_manager.py` and
`bots/bot_controller/azure_file_uploader.py`).

The Python code is shallowly embedded: environment lookup becomes a function
`String → Option String`, the stringly-typed configuration dictionaries become
association lists `List (String × Option String)`, exceptions become `Except`,
and background threads become explicit traces of callback invocations.
External SDK behaviour (boto3 / azure-storage-blob client construction,
network transfer, connection-string parsing) is nondeterministic from the
program's point of view and is supplied through an explicit oracle.
Logging side effects are not modelled.
-/

namespace Attendee

/-- An environment: `os.getenv` as a partial map from variable names to values.
A variable set to the empty string is `some ""`, an unset variable is `none`. -/
abbrev Env := String → Option String

/-- Python truthiness of an `Optional[str]`: `None` and `""` are falsy,
every other string is truthy.  This is the meaning of `bool(x)`, `if not x`,
and `any([...])` applied to the optional strings in the source. -/
def truthy : Option String → Bool
  | none => false
  | some s => !s.isEmpty

/-- Lookup in a Python dict of `Optional[str]` values, `d.get(k)`:
an absent key and a key stored with value `None` both read as `None`. -/
def dictGet (d : List (String × Option String)) (k : String) : Option String :=
  (List.lookup k d).join

/-- `StorageProvider` enum of `unified_storage_manager.py`. -/
inductive StorageProvider where
  | AWS_S3
  | AZURE_BLOB
deriving DecidableEq, Repr

/-- The `.value` of the enum member: `AWS_S3 = "s3"`, `AZURE_BLOB = "azure"`. -/
def StorageProvider.value : StorageProvider → String
  | .AWS_S3 => "s3"
  | .AZURE_BLOB => "azure"

/-- `StorageConfig`: a provider tag paired with its configuration dict. -/
structure StorageConfig where
  provider : StorageProvider
  config : List (String × Option String)
deriving DecidableEq, Repr

/-- `StorageConfig.validate`: bucket name truthy for S3, container name truthy
for Azure Blob. -/
def StorageConfig.validate (c : StorageConfig) : Bool :=
  match c.provider with
  | .AWS_S3 => truthy (dictGet c.config "bucket")
  | .AZURE_BLOB => truthy (dictGet c.config "container_name")

/-- Python's `str.lower()`, character by character (ASCII case mapping; the
fixed mode strings it is compared against below are all ASCII). -/
def strLower (s : String) : String := String.mk (s.data.map Char.toLower)

/-- `UnifiedStorageManager._should_use_aws`:
`os.getenv("STORAGE_UPLOAD_MODE", "s3").lower() in ["s3", "both", "all"]`. -/
def should_use_aws (env : Env) : Bool :=
  let upload_mode := strLower ((env "STORAGE_UPLOAD_MODE").getD "s3")
  ["s3", "both", "all"].contains upload_mode

/-- `UnifiedStorageManager._should_use_azure`:
`upload_mode in ["azure", "both", "all"] and AZURE_AVAILABLE`.
`azureAvailable` is the module-level `AZURE_AVAILABLE` flag (whether the Azure
SDK import succeeded). -/
def should_use_azure (azureAvailable : Bool) (env : Env) : Bool :=
  let upload_mode := strLower ((env "STORAGE_UPLOAD_MODE").getD "s3")
  (["azure", "both", "all"].contains upload_mode) && azureAvailable

/-- `UnifiedStorageManager._get_aws_config`: `None` when the bucket name is
absent or empty, otherwise the S3 configuration dict. -/
def get_aws_config (env : Env) : Option (List (String × Option String)) :=
  let bucket := env "AWS_RECORDING_STORAGE_BUCKET_NAME"
  if truthy bucket then
    some [("bucket", bucket),
          ("endpoint_url", env "AWS_ENDPOINT_URL"),
          ("region_name", env "AWS_DEFAULT_REGION"),
          ("access_key_id", env "AWS_ACCESS_KEY_ID"),
          ("secret_access_key", env "AWS_SECRET_ACCESS_KEY")]
  else
    none

/-- `UnifiedStorageManager._get_azure_config`: `None` when the container name
is absent or empty, or when no authentication method (account name, connection
string, account key) is truthy; otherwise the Azure configuration dict. -/
def get_azure_config (env : Env) : Option (List (String × Option String)) :=
  let container_name := env "AZURE_STORAGE_CONTAINER_NAME"
  if truthy container_name then
    let config := [("container_name", container_name),
                   ("storage_account_name", env "AZURE_STORAGE_ACCOUNT_NAME"),
                   ("connection_string", env "AZURE_STORAGE_CONNECTION_STRING"),
                   ("account_key", env "AZURE_STORAGE_ACCOUNT_KEY")]
    if truthy (dictGet config "storage_account_name")
        || truthy (dictGet config "connection_string")
        || truthy (dictGet config "account_key") then
      some config
    else
      none
  else
    none

/-- The S3 portion of `_load_storage_configs` before validation: one
`StorageConfig` when S3 is enabled and `_get_aws_config` returns a dict. -/
def s3Part (env : Env) : List StorageConfig :=
  if should_use_aws env then
    match get_aws_config env with
    | some c => [StorageConfig.mk .AWS_S3 c]
    | none => []
  else []

/-- The Azure portion of `_load_storage_configs` before validation: one
`StorageConfig` when Azure is enabled and `_get_azure_config` returns a
dict. -/
def azPart (azureAvailable : Bool) (env : Env) : List StorageConfig :=
  if should_use_azure azureAvailable env then
    match get_azure_config env with
    | some c => [StorageConfig.mk .AZURE_BLOB c]
    | none => []
  else []

/-- `UnifiedStorageManager._load_storage_configs`: build the per-provider
configs gated by the upload mode (S3 appended first, then Azure), then keep
only the ones passing `StorageConfig.validate`. -/
def load_storage_configs (azureAvailable : Bool) (env : Env) : List StorageConfig :=
  (s3Part env ++ azPart azureAvailable env).filter StorageConfig.validate

/-- The set of providers the loader's mode gates enable, in load order.
This is exactly the gating structure of `_load_storage_configs`: S3 first when
`_should_use_aws`, then Azure Blob when `_should_use_azure`. -/
def enabledProviders (azureAvailable : Bool) (env : Env) : List StorageProvider :=
  (if should_use_aws env then [StorageProvider.AWS_S3] else []) ++
  (if should_use_azure azureAvailable env then [StorageProvider.AZURE_BLOB] else [])

/-- Exceptions observable in the embedded fragment.  `valueError` is Python's
`ValueError`, `importError` the `ImportError` raised when the Azure SDK is not
installed, `fileNotFound` the `FileNotFoundError` raised by the upload worker,
and `sdkError` any error raised inside an external SDK call (client
construction, network transfer, URL construction). -/
inductive Exc where
  | valueError (msg : String)
  | importError (msg : String)
  | fileNotFound (msg : String)
  | sdkError (msg : String)
deriving DecidableEq, Repr

/-- The message of the `ValueError` raised by
`AzureFileUploader._initialize_blob_service_client` when no authentication
combination applies. -/
def azureAuthErrorMsg : String :=
  "Must provide either storage_account_name (for managed identity), connection_string, or storage_account_name with account_key"

/-- The authentication strategy selected by
`AzureFileUploader._initialize_blob_service_client`. -/
inductive AzureAuthStrategy where
  | managedIdentity
  | connectionString
  | accountKey
deriving DecidableEq, Repr

/-- The branch structure of
`AzureFileUploader._initialize_blob_service_client`: managed identity when the
account name is truthy and both the connection string and the account key are
falsy; else the connection string when truthy; else the account key when both
the account name and the account key are truthy; else `ValueError`. -/
def selectAuthStrategy (storage_account_name connection_string account_key : Option String) :
    Except Exc AzureAuthStrategy :=
  if truthy storage_account_name && !truthy connection_string && !truthy account_key then
    .ok .managedIdentity
  else if truthy connection_string then
    .ok .connectionString
  else if truthy storage_account_name && truthy account_key then
    .ok .accountKey
  else
    .error (.valueError azureAuthErrorMsg)

/-- External (SDK-level) nondeterminism, fixed by the environment in which the
program runs: whether S3 uploader construction/start succeeds, whether the
Azure SDK client construction succeeds, the account URL the Azure SDK parses
out of a connection string, and whether blob-URL construction succeeds. -/
structure ExtOracle where
  s3Ok : Bool
  azureSdkOk : Bool
  connStringAccountUrl : String
  urlOk : Bool
deriving DecidableEq, Repr

/-- `AzureFileUploader` state after a successful `__init__`: the container
name, the blob name, the selected authentication strategy, and the account URL
of the underlying `BlobServiceClient`. -/
structure AzureFileUploader where
  container_name : String
  blob_name : String
  strategy : AzureAuthStrategy
  account_url : String
deriving DecidableEq, Repr

/-- The account URL the constructor gives the `BlobServiceClient`:
`"https://{storage_account_name}.blob.core.windows.net"` for managed identity
and account-key auth; for connection-string auth the SDK parses it out of the
connection string (external, taken from the oracle). -/
def azureAccountUrl (o : ExtOracle) (storage_account_name : Option String) :
    AzureAuthStrategy → String
  | .managedIdentity => "https://" ++ storage_account_name.getD "" ++ ".blob.core.windows.net"
  | .accountKey => "https://" ++ storage_account_name.getD "" ++ ".blob.core.windows.net"
  | .connectionString => o.connStringAccountUrl

/-- `AzureFileUploader.__init__`: raises `ImportError` when the Azure SDK is
unavailable, then selects the authentication strategy (propagating its
`ValueError`), then constructs the `BlobServiceClient` (an external SDK call
that may itself raise, modelled by `o.azureSdkOk`). -/
def AzureFileUploader.construct (azureAvailable : Bool) (o : ExtOracle)
    (container_name blob_name : String)
    (storage_account_name connection_string account_key : Option String) :
    Except Exc AzureFileUploader :=
  if !azureAvailable then
    .error (.importError "Azure Storage SDK not installed. Install with: pip install azure-storage-blob azure-identity")
  else
    match selectAuthStrategy storage_account_name connection_string account_key with
    | .error e => .error e
    | .ok strat =>
      if o.azureSdkOk then
        .ok ⟨container_name, blob_name, strat, azureAccountUrl o storage_account_name strat⟩
      else
        .error (.sdkError "Azure Blob Service Client construction failed")

/-- The URL of the blob, as `blob_client.url` exposes it:
account URL, container and blob name (percent-encoding is SDK-owned and not
modelled). -/
def AzureFileUploader.blobUrl (u : AzureFileUploader) : String :=
  u.account_url ++ "/" ++ u.container_name ++ "/" ++ u.blob_name

/-- `AzureFileUploader.get_blob_url`: builds a blob client and reads its URL;
the SDK calls involved may raise (modelled by `urlOk`). -/
def AzureFileUploader.get_blob_url (u : AzureFileUploader) (urlOk : Bool) :
    Except Exc String :=
  if urlOk then .ok u.blobUrl
  else .error (.sdkError "failed to construct blob client")

/-- Modelled from the spec: `FileUploader`
(`bots/bot_controller/file_uploader.py` is not part of the provided sources;
only its call sites in `unified_storage_manager.py` are).  Per the spec it
wraps an S3-style SDK client over a bucket, key and optional overrides, with
no synchronous failure condition of its own beyond external SDK errors. -/
structure FileUploader where
  bucket : Option String
  key : String
  endpoint_url : Option String
  region_name : Option String
  access_key_id : Option String
  access_key_secret : Option String
deriving DecidableEq, Repr

/-- Modelled from the spec: constructing the S3 `FileUploader` and starting its
background upload can fail only for external SDK reasons, modelled by
`o.s3Ok`. -/
def FileUploader.construct (o : ExtOracle) (cfg : List (String × Option String))
    (key : String) : Except Exc FileUploader :=
  if o.s3Ok then
    .ok ⟨dictGet cfg "bucket", key, dictGet cfg "endpoint_url",
         dictGet cfg "region_name", dictGet cfg "access_key_id",
         dictGet cfg "secret_access_key"⟩
  else
    .error (.sdkError "S3 uploader construction failed")

/-- An uploader handle held in `UnifiedStorageManager.upload_threads`. -/
inductive Uploader where
  | s3 (u : FileUploader)
  | azure (u : AzureFileUploader)
deriving DecidableEq, Repr

/-- The outcome of one iteration of the provider loop in
`UnifiedStorageManager.upload_file`: either the uploader handle produced by
`_upload_to_s3` / `_upload_to_azure`, or the exception it raised. -/
def startOutcome (azureAvailable : Bool) (o : ExtOracle) (file_key : String)
    (c : StorageConfig) : Except Exc Uploader :=
  match c.provider with
  | .AWS_S3 => (FileUploader.construct o c.config file_key).map .s3
  | .AZURE_BLOB =>
    (AzureFileUploader.construct azureAvailable o
      ((dictGet c.config "container_name").getD "") file_key
      (dictGet c.config "storage_account_name")
      (dictGet c.config "connection_string")
      (dictGet c.config "account_key")).map .azure

/-- `UnifiedStorageManager` state: the file key, the configs loaded at
construction, the accumulated uploader handles, and the retained Azure
uploader for URL retrieval. -/
structure USMState where
  file_key : String
  storage_configs : List StorageConfig
  upload_threads : List Uploader
  azure_uploader : Option AzureFileUploader
deriving DecidableEq, Repr

/-- `UnifiedStorageManager.__init__`: loads and validates configuration
synchronously; `upload_threads` starts empty and `azure_uploader` unset. -/
def mkUSM (azureAvailable : Bool) (env : Env) (file_key : String) : USMState :=
  ⟨file_key, load_storage_configs azureAvailable env, [], none⟩

/-- The provider loop of `UnifiedStorageManager.upload_file`.  For each config
it tries `_upload_to_s3` / `_upload_to_azure`; on success the handle is
appended to `upload_threads` (and for Azure the handle is retained in
`azure_uploader`); the `except` clause converts a raised exception into one
synchronous aggregation-callback invocation `(config.provider.value, False)`
and the loop continues with the next config.  The returned event list is the
trace of aggregation-callback invocations made synchronously during
`upload_file`; callbacks from uploads that did start arrive later, from the
background workers. -/
def uploadLoop (azureAvailable : Bool) (o : ExtOracle) (file_key : String) :
    List StorageConfig → List Uploader → Option AzureFileUploader →
    List (String × Bool) →
    List Uploader × Option AzureFileUploader × List (String × Bool)
  | [], threads, az, evs => (threads, az, evs)
  | c :: rest, threads, az, evs =>
    match startOutcome azureAvailable o file_key c with
    | .ok u =>
      uploadLoop azureAvailable o file_key rest (threads ++ [u])
        (match u with
         | .azure a => some a
         | .s3 _ => az) evs
    | .error _ =>
      uploadLoop azureAvailable o file_key rest threads az
        (evs ++ [(c.provider.value, false)])

/-- `UnifiedStorageManager.upload_file`: returns immediately (after logging an
error, not modelled) when no config is loaded; otherwise runs the provider
loop.  The second component is the trace of synchronous aggregation-callback
invocations; `file_path` is passed to the background workers and does not
influence which uploaders are constructed. -/
def upload_file (azureAvailable : Bool) (o : ExtOracle) (st : USMState)
    (file_path : String) : USMState × List (String × Bool) :=
  if st.storage_configs = [] then
    (st, [])
  else
    let r := uploadLoop azureAvailable o st.file_key st.storage_configs
      st.upload_threads st.azure_uploader []
    ({ st with upload_threads := r.1, azure_uploader := r.2.1 }, r.2.2)

/-- `UnifiedStorageManager.wait_for_uploads`: joins each handle in
`upload_threads` in order inside a `try`/`except`, so an exception raised
while waiting on one handle (modelled by `waitOk u = false`) is logged and the
loop continues.  The result records, per handle waited on, whether the wait
completed without raising. -/
def waitLoop (waitOk : Uploader → Bool) : List Uploader → List (Uploader × Bool)
  | [] => []
  | u :: rest => (u, waitOk u) :: waitLoop waitOk rest

/-- `wait_for_uploads` applied to a coordinator state. -/
def wait_for_uploads (waitOk : Uploader → Bool) (st : USMState) :
    List (Uploader × Bool) :=
  waitLoop waitOk st.upload_threads

/-- A sequence of `upload_file` calls on the same coordinator, with a fixed
external oracle (the external environment is unchanged between calls). -/
def run_calls (azureAvailable : Bool) (o : ExtOracle) :
    USMState → List String → USMState
  | st, [] => st
  | st, file_path :: rest =>
    run_calls azureAvailable o (upload_file azureAvailable o st file_path).1 rest

/-- The body of `AzureFileUploader._upload_worker` up to its `except` clauses:
raises `FileNotFoundError` when the local file does not exist, then performs
the SDK transfer (`sdkUpload` is the outcome of the external
`get_blob_client` / `open` / `upload_blob` calls); on success the callback is
invoked with `True`.  The result lists the callback invocations. -/
def upload_worker_body (fileExists : Bool) (sdkUpload : Except Exc Unit) :
    Except Exc (List Bool) :=
  if !fileExists then
    .error (.fileNotFound "File not found")
  else
    match sdkUpload with
    | .ok _ => .ok [true]
    | .error e => .error e

/-- `AzureFileUploader._upload_worker` with a callback supplied: the
`except AzureError` and `except Exception` clauses both log and invoke the
callback with `False`, so no exception escapes the background thread. -/
def upload_worker (fileExists : Bool) (sdkUpload : Except Exc Unit) : List Bool :=
  match upload_worker_body fileExists sdkUpload with
  | .ok calls => calls
  | .error _ => [false]

/-- `UnifiedStorageManager.get_azure_blob_url`: `None` when no Azure uploader
is retained; otherwise the uploader's `get_blob_url()`, with any raised error
caught and converted to `None`. -/
def get_azure_blob_url (urlOk : Bool) (st : USMState) : Option String :=
  match st.azure_uploader with
  | none => none
  | some u =>
    match u.get_blob_url urlOk with
    | .ok url => some url
    | .error _ => none

/-- The uploader handle a config contributes to `upload_threads`, when its
start succeeds. -/
def startedUploader (azureAvailable : Bool) (o : ExtOracle) (file_key : String)
    (c : StorageConfig) : Option Uploader :=
  (startOutcome azureAvailable o file_key c).toOption

/-- The synchronous aggregation-callback event a config contributes when its
start raises: the `except` clause in `upload_file` reports
`(config.provider.value, False)`. -/
def startFailEvent (azureAvailable : Bool) (o : ExtOracle) (file_key : String)
    (c : StorageConfig) : Option (String × Bool) :=
  match startOutcome azureAvailable o file_key c with
  | .ok _ => none
  | .error _ => some (c.provider.value, false)

/-- How one provider-loop iteration updates the retained `azure_uploader`. -/
def azStep (azureAvailable : Bool) (o : ExtOracle) (file_key : String)
    (c : StorageConfig) (az : Option AzureFileUploader) : Option AzureFileUploader :=
  match startOutcome azureAvailable o file_key c with
  | .ok (.azure a) => some a
  | _ => az

/-- How the whole provider loop updates the retained `azure_uploader`. -/
def azUpdateList (azureAvailable : Bool) (o : ExtOracle) (file_key : String) :
    List StorageConfig → Option AzureFileUploader → Option AzureFileUploader
  | [], az => az
  | c :: rest, az =>
    azUpdateList azureAvailable o file_key rest (azStep azureAvailable o file_key c az)

/-! Concrete inputs used to exercise the theorems. -/

/-- An environment with every variable unset: the default mode `s3` applies
but no bucket is configured, so no valid config is loaded. -/
def envUnset : Env := fun _ => none

/-- An environment selecting the unrecognized upload mode `gcs`. -/
def envGcs : Env := fun k => if k = "STORAGE_UPLOAD_MODE" then some "gcs" else none

/-- An environment in Azure mode whose Blob authentication consists of an
account key only (no storage-account name, no connection string). -/
def envKeyOnly : Env := fun k =>
  if k = "STORAGE_UPLOAD_MODE" then some "azure"
  else if k = "AZURE_STORAGE_CONTAINER_NAME" then some "recordings"
  else if k = "AZURE_STORAGE_ACCOUNT_KEY" then some "key123"
  else none

/-- An environment in the default mode with only an S3 bucket configured. -/
def envS3Only : Env := fun k =>
  if k = "AWS_RECORDING_STORAGE_BUCKET_NAME" then some "bkt" else none

/-- An environment in Azure mode with a container and a storage-account name
(managed-identity authentication). -/
def envAzManaged : Env := fun k =>
  if k = "STORAGE_UPLOAD_MODE" then some "azure"
  else if k = "AZURE_STORAGE_CONTAINER_NAME" then some "recordings"
  else if k = "AZURE_STORAGE_ACCOUNT_NAME" then some "acct"
  else none

/-- An oracle on which every external SDK operation succeeds. -/
def oracleOk : ExtOracle := ⟨true, true, "https://parsed.example.net", true⟩

/-- Coordinator state after one `upload_file` call in the `envS3Only`
environment. -/
def stS3One : USMState := (upload_file true oracleOk (mkUSM true envS3Only "file-key") "f").1

/-- Coordinator state after a second `upload_file` call on the same
coordinator. -/
def stS3Two : USMState := (upload_file true oracleOk stS3One "f").1

/-- The Blob config that `envKeyOnly` loads. -/
def cfgKeyOnly : StorageConfig :=
  StorageConfig.mk .AZURE_BLOB
    [("container_name", some "recordings"),
     ("storage_account_name", none),
     ("connection_string", none),
     ("account_key", some "key123")]

/-- The Blob config that `envAzManaged` loads. -/
def cfgAzManaged : StorageConfig :=
  StorageConfig.mk .AZURE_BLOB
    [("container_name", some "recordings"),
     ("storage_account_name", some "acct"),
     ("connection_string", none),
     ("account_key", none)]

/-- The Azure uploader constructed for `cfgAzManaged` with file key
`"file-key"`. -/
def upAzManaged : AzureFileUploader :=
  ⟨"recordings", "file-key", .managedIdentity, "https://acct.blob.core.windows.net"⟩

/-! Helper lemmas. -/

/-- Closed form of the provider loop: started handles are appended, the
retained Azure uploader is folded through `azStep`, and failure events are
appended, each independently of the others. -/
theorem uploadLoop_eq (aa : Bool) (o : ExtOracle) (fk : String)
    (cs : List StorageConfig) (ts : List Uploader) (az : Option AzureFileUploader)
    (evs : List (String × Bool)) :
    uploadLoop aa o fk cs ts az evs =
      (ts ++ cs.filterMap (startedUploader aa o fk),
       azUpdateList aa o fk cs az,
       evs ++ cs.filterMap (startFailEvent aa o fk)) := by
  induction cs generalizing ts az evs with
  | nil => simp [uploadLoop, azUpdateList]
  | cons c rest ih =>
    cases h : startOutcome aa o fk c with
    | ok u =>
      cases u with
      | s3 f =>
        simp [uploadLoop, azUpdateList, h, azStep, startedUploader, startFailEvent, ih,
          List.filterMap_cons, Except.toOption]
      | azure a =>
        simp [uploadLoop, azUpdateList, h, azStep, startedUploader, startFailEvent, ih,
          List.filterMap_cons, Except.toOption]
    | error e =>
      simp [uploadLoop, azUpdateList, h, azStep, startedUploader, startFailEvent, ih,
        List.filterMap_cons, Except.toOption]

/-- Closed form of `upload_file`. -/
theorem upload_file_eq (aa : Bool) (o : ExtOracle) (st : USMState) (fp : String) :
    upload_file aa o st fp =
      ({ st with
          upload_threads :=
            st.upload_threads ++ st.storage_configs.filterMap (startedUploader aa o st.file_key),
          azure_uploader :=
            azUpdateList aa o st.file_key st.storage_configs st.azure_uploader },
       st.storage_configs.filterMap (startFailEvent aa o st.file_key)) := by
  by_cases h : st.storage_configs = []
  · simp only [upload_file, h, azUpdateList, if_true, List.filterMap_nil, List.append_nil]
    rw [← h]
  · simp [upload_file, h, uploadLoop_eq]

/-- Every element of the S3 portion carries the S3 tag and the dict produced
by `_get_aws_config`. -/
theorem s3Part_mem (env : Env) (c : StorageConfig) (hc : c ∈ s3Part env) :
    c.provider = .AWS_S3 ∧ get_aws_config env = some c.config := by
  unfold s3Part at hc
  split at hc
  · cases h : get_aws_config env with
    | some cfg => rw [h] at hc; simp at hc; subst hc; exact ⟨rfl, by simpa using h⟩
    | none => rw [h] at hc; simp at hc
  · simp at hc

/-- Every element of the Azure portion carries the Blob tag and the dict
produced by `_get_azure_config`, and the portion is exactly that singleton. -/
theorem azPart_mem (aa : Bool) (env : Env) (c : StorageConfig)
    (hc : c ∈ azPart aa env) :
    c.provider = .AZURE_BLOB ∧ get_azure_config env = some c.config ∧
      azPart aa env = [c] := by
  unfold azPart at hc
  split at hc
  · rename_i hs
    cases h : get_azure_config env with
    | some cfg =>
      rw [h] at hc; simp at hc; subst hc
      refine ⟨rfl, by simpa using h, ?_⟩
      unfold azPart
      rw [if_pos hs, h]
    | none => rw [h] at hc; simp at hc
  · simp at hc

/-- A dict returned by `_get_aws_config` has a truthy bucket entry. -/
theorem get_aws_config_bucket (env : Env) (cfg : List (String × Option String))
    (h : get_aws_config env = some cfg) :
    truthy (dictGet cfg "bucket") = true := by
  simp only [get_aws_config] at h
  split at h
  · rename_i ht
    simp only [Option.some.injEq] at h
    subst h
    simpa [dictGet, List.lookup] using ht
  · exact absurd h (by simp)

/-- A dict returned by `_get_azure_config` has a truthy container entry and at
least one truthy authentication entry. -/
theorem get_azure_config_fields (env : Env) (cfg : List (String × Option String))
    (h : get_azure_config env = some cfg) :
    truthy (dictGet cfg "container_name") = true ∧
      (truthy (dictGet cfg "storage_account_name")
        || truthy (dictGet cfg "connection_string")
        || truthy (dictGet cfg "account_key")) = true := by
  simp only [get_azure_config] at h
  split at h
  · rename_i ht
    split at h
    · rename_i hauth
      simp only [Option.some.injEq] at h
      subst h
      constructor
      · simpa [dictGet, List.lookup] using ht
      · simpa [dictGet, List.lookup] using hauth
    · exact absurd h (by simp)
  · exact absurd h (by simp)

/-- Folding the Azure-uploader update over an appended list. -/
theorem azUpdateList_append (aa : Bool) (o : ExtOracle) (fk : String)
    (xs ys : List StorageConfig) (az : Option AzureFileUploader) :
    azUpdateList aa o fk (xs ++ ys) az =
      azUpdateList aa o fk ys (azUpdateList aa o fk xs az) := by
  induction xs generalizing az with
  | nil => simp [azUpdateList]
  | cons c rest ih => simp [azUpdateList, ih]

/-- S3 configs never touch the retained Azure uploader. -/
theorem azUpdateList_all_s3 (aa : Bool) (o : ExtOracle) (fk : String)
    (cs : List StorageConfig) (az : Option AzureFileUploader)
    (h : ∀ c ∈ cs, c.provider = .AWS_S3) :
    azUpdateList aa o fk cs az = az := by
  induction cs generalizing az with
  | nil => rfl
  | cons c rest ih =>
    have hc : c.provider = .AWS_S3 := h c (by simp)
    have hstep : azStep aa o fk c az = az := by
      unfold azStep startOutcome
      rw [hc]
      cases FileUploader.construct o c.config fk <;> simp [Except.map]
    rw [azUpdateList, hstep]
    exact ih az (fun x hx => h x (by simp [hx]))

/-- The Azure-uploader fold over any config list is either a constant function
or the identity. -/
theorem azUpdateList_const_or_id (aa : Bool) (o : ExtOracle) (fk : String)
    (cs : List StorageConfig) :
    (∀ x y, azUpdateList aa o fk cs x = azUpdateList aa o fk cs y) ∨
      (∀ x, azUpdateList aa o fk cs x = x) := by
  induction cs with
  | nil => exact Or.inr (fun x => rfl)
  | cons c rest ih =>
    cases h : startOutcome aa o fk c with
    | ok u =>
      cases u with
      | s3 f =>
        cases ih with
        | inl hconst =>
          exact Or.inl (fun x y => by
            rw [azUpdateList, azUpdateList]
            unfold azStep
            rw [h]
            exact hconst _ _)
        | inr hid =>
          exact Or.inr (fun x => by
            rw [azUpdateList]
            unfold azStep
            rw [h]
            exact hid x)
      | azure a =>
        exact Or.inl (fun x y => by
          rw [azUpdateList, azUpdateList]
          unfold azStep
          rw [h])
    | error e =>
      cases ih with
      | inl hconst =>
        exact Or.inl (fun x y => by
          rw [azUpdateList, azUpdateList]
          unfold azStep
          rw [h]
          exact hconst _ _)
      | inr hid =>
        exact Or.inr (fun x => by
          rw [azUpdateList]
          unfold azStep
          rw [h]
          exact hid x)

/-- The Azure-uploader fold is idempotent. -/
theorem azUpdateList_idem (aa : Bool) (o : ExtOracle) (fk : String)
    (cs : List StorageConfig) (x : Option AzureFileUploader) :
    azUpdateList aa o fk cs (azUpdateList aa o fk cs x) = azUpdateList aa o fk cs x := by
  cases azUpdateList_const_or_id aa o fk cs with
  | inl hconst => exact hconst _ _
  | inr hid => rw [hid, hid]

/-- `upload_file` never changes the file key or the loaded configs. -/
theorem upload_file_preserves (aa : Bool) (o : ExtOracle) (st : USMState) (fp : String) :
    (upload_file aa o st fp).1.file_key = st.file_key ∧
      (upload_file aa o st fp).1.storage_configs = st.storage_configs := by
  rw [upload_file_eq]
  exact ⟨rfl, rfl⟩

/-- Invariant of a coordinator after at least one `upload_file` call under a
fixed oracle: the file key and configs are those loaded at construction, and
the retained Azure uploader is the fold of the config list starting from
`none`. -/
def GoodState (aa : Bool) (o : ExtOracle) (fk : String) (C : List StorageConfig)
    (st : USMState) : Prop :=
  st.file_key = fk ∧ st.storage_configs = C ∧
    st.azure_uploader = azUpdateList aa o fk C none

/-- `upload_file` preserves the invariant. -/
theorem upload_file_good (aa : Bool) (o : ExtOracle) (fk : String)
    (C : List StorageConfig) (st : USMState) (fp : String)
    (h : GoodState aa o fk C st) :
    GoodState aa o fk C (upload_file aa o st fp).1 := by
  obtain ⟨h1, h2, h3⟩ := h
  rw [upload_file_eq]
  refine ⟨h1, h2, ?_⟩
  simp only [h1, h2, h3]
  exact azUpdateList_idem aa o fk C none

/-- `run_calls` preserves the invariant. -/
theorem run_calls_good (aa : Bool) (o : ExtOracle) (fk : String)
    (C : List StorageConfig) (st : USMState) (fps : List String)
    (h : GoodState aa o fk C st) :
    GoodState aa o fk C (run_calls aa o st fps) := by
  induction fps generalizing st with
  | nil => exact h
  | cons fp rest ih =>
    rw [run_calls]
    exact ih _ (upload_file_good aa o fk C st fp h)

/-- The first `upload_file` call on a freshly constructed coordinator
establishes the invariant. -/
theorem upload_file_good_init (aa : Bool) (o : ExtOracle) (env : Env)
    (fk fp : String) :
    GoodState aa o fk (load_storage_configs aa env)
      (upload_file aa o (mkUSM aa env fk) fp).1 := by
  rw [upload_file_eq]
  exact ⟨rfl, rfl, rfl⟩

/-- After a nonempty sequence of `upload_file` calls under a fixed oracle, the
coordinator state satisfies the invariant with the constructor-loaded
configs. -/
theorem run_calls_state (aa : Bool) (o : ExtOracle) (env : Env) (fk : String)
    (fps : List String) (h : fps ≠ []) :
    GoodState aa o fk (load_storage_configs aa env)
      (run_calls aa o (mkUSM aa env fk) fps) := by
  cases fps with
  | nil => exact absurd rfl h
  | cons fp rest =>
    rw [run_calls]
    refine run_calls_good aa o fk _ _ rest ?_
    exact upload_file_good_init aa o env fk fp

/-! Claim theorems. -/

/-- C1 (counterexample): the claim says an unrecognized upload mode behaves as
"s3 only" with the S3 provider enabled; but for the unrecognized mode `gcs`
`_should_use_aws` is false, so the S3 provider is disabled as well. -/
theorem claim1_counterexample :
    strLower ((envGcs "STORAGE_UPLOAD_MODE").getD "s3") = "gcs" ∧
      "gcs" ∉ (["s3", "azure", "both", "all"] : List String) ∧
      should_use_aws envGcs = false ∧
      should_use_azure true envGcs = false := by
  decide

/-- C1 (amended): for every upload-mode value that is not (case-insensitively)
one of `s3`, `azure`, `both`, `all`, the Configuration Loader disables both
providers — the S3 provider and the Blob provider are both disabled, and no
config is loaded at all. -/
theorem claim1_amended (env : Env) (aa : Bool)
    (h : strLower ((env "STORAGE_UPLOAD_MODE").getD "s3") ∉
      (["s3", "azure", "both", "all"] : List String)) :
    should_use_aws env = false ∧ should_use_azure aa env = false ∧
      enabledProviders aa env = [] ∧ load_storage_configs aa env = [] := by
  simp only [List.mem_cons, List.not_mem_nil, or_false, not_or] at h
  obtain ⟨h1, h2, h3, h4⟩ := h
  have haws : should_use_aws env = false := by
    simp [should_use_aws, List.contains, List.elem_cons, h1, h3, h4]
  have haz : should_use_azure aa env = false := by
    simp [should_use_azure, List.contains, List.elem_cons, h2, h3, h4]
  refine ⟨haws, haz, ?_, ?_⟩
  · simp [enabledProviders, haws, haz]
  · simp [load_storage_configs, s3Part, azPart, haws, haz]

/-- C1 (amended, witness): the unrecognized mode `gcs` disables both
providers. -/
theorem claim1_amended_witness :
    (strLower ((envGcs "STORAGE_UPLOAD_MODE").getD "s3") ∉
        (["s3", "azure", "both", "all"] : List String)) ∧
      should_use_aws envGcs = false ∧ should_use_azure false envGcs = false ∧
      enabledProviders false envGcs = [] ∧ load_storage_configs false envGcs = [] :=
  ⟨by decide, claim1_amended envGcs false (by decide)⟩

/-- C2: for every upload-mode value in `{s3, azure, both, all}` compared
case-insensitively, with `s3` the default when the selector is absent, the
providers enabled by the Configuration Loader (with the Azure SDK available)
are exactly `{S3}` for `s3`, `{Blob}` for `azure`, and `{S3, Blob}` for `both`
and for `all`. -/
theorem claim2 (env : Env) :
    (strLower ((env "STORAGE_UPLOAD_MODE").getD "s3") = "s3" →
      should_use_aws env = true ∧ should_use_azure true env = false ∧
        enabledProviders true env = [.AWS_S3]) ∧
    (strLower ((env "STORAGE_UPLOAD_MODE").getD "s3") = "azure" →
      should_use_aws env = false ∧ should_use_azure true env = true ∧
        enabledProviders true env = [.AZURE_BLOB]) ∧
    (strLower ((env "STORAGE_UPLOAD_MODE").getD "s3") = "both" ∨
        strLower ((env "STORAGE_UPLOAD_MODE").getD "s3") = "all" →
      should_use_aws env = true ∧ should_use_azure true env = true ∧
        enabledProviders true env = [.AWS_S3, .AZURE_BLOB]) ∧
    (env "STORAGE_UPLOAD_MODE" = none →
      should_use_aws env = true ∧ should_use_azure true env = false ∧
        enabledProviders true env = [.AWS_S3]) := by
  refine ⟨fun h => ?_, fun h => ?_, fun h => ?_, fun h => ?_⟩
  · simp only [should_use_aws, should_use_azure, enabledProviders, h]
    decide
  · simp only [should_use_aws, should_use_azure, enabledProviders, h]
    decide
  · rcases h with h | h <;>
      · simp only [should_use_aws, should_use_azure, enabledProviders, h]
        decide
  · simp only [should_use_aws, should_use_azure, enabledProviders, h]
    decide

/-- C2 (witness): with the selector unset, only the S3 provider is enabled. -/
theorem claim2_witness :
    envUnset "STORAGE_UPLOAD_MODE" = none ∧
      should_use_aws envUnset = true ∧ should_use_azure true envUnset = false ∧
      enabledProviders true envUnset = [.AWS_S3] :=
  ⟨rfl, (claim2 envUnset).2.2.2 rfl⟩

/-- C3: every config returned by the Configuration Loader is valid, an S3
config is returned only with a truthy bucket name, and a Blob config only with
a truthy container name and at least one truthy authentication field. -/
theorem claim3 (aa : Bool) (env : Env) (c : StorageConfig)
    (hc : c ∈ load_storage_configs aa env) :
    c.validate = true ∧
      (c.provider = .AWS_S3 → truthy (dictGet c.config "bucket") = true) ∧
      (c.provider = .AZURE_BLOB →
        truthy (dictGet c.config "container_name") = true ∧
          (truthy (dictGet c.config "storage_account_name")
            || truthy (dictGet c.config "connection_string")
            || truthy (dictGet c.config "account_key")) = true) := by
  rw [load_storage_configs] at hc
  have hmf := List.mem_filter.mp hc
  refine ⟨hmf.2, ?_, ?_⟩ <;> rcases List.mem_append.mp hmf.1 with h | h
  · intro _
    exact get_aws_config_bucket env c.config (s3Part_mem env c h).2
  · intro hp
    rw [(azPart_mem aa env c h).1] at hp
    exact absurd hp (by decide)
  · intro hp
    rw [(s3Part_mem env c h).1] at hp
    exact absurd hp (by decide)
  · intro _
    exact get_azure_config_fields env c.config (azPart_mem aa env c h).2.1

/-- C3 (witness): the Blob config loaded from `envAzManaged` is valid, with a
truthy container name and a truthy account name. -/
theorem claim3_witness :
    cfgAzManaged ∈ load_storage_configs true envAzManaged ∧
      cfgAzManaged.validate = true ∧
      truthy (dictGet cfgAzManaged.config "container_name") = true ∧
      (truthy (dictGet cfgAzManaged.config "storage_account_name")
        || truthy (dictGet cfgAzManaged.config "connection_string")
        || truthy (dictGet cfgAzManaged.config "account_key")) = true :=
  ⟨by decide,
   (claim3 true envAzManaged cfgAzManaged (by decide)).1,
   ((claim3 true envAzManaged cfgAzManaged (by decide)).2.2 rfl).1,
   ((claim3 true envAzManaged cfgAzManaged (by decide)).2.2 rfl).2⟩

/-- C4: with zero loaded configs, `upload_file` returns immediately: the state
is unchanged (no uploader handle created, no retained Azure uploader) and no
callback — aggregation or supplied — is invoked. -/
theorem claim4 (aa : Bool) (o : ExtOracle) (st : USMState) (fp : String)
    (h : st.storage_configs = []) :
    upload_file aa o st fp = (st, []) := by
  simp [upload_file, h]

/-- C4 (witness): a coordinator constructed with every variable unset loads
zero configs, and `upload_file` on it is a no-op with an empty callback
trace. -/
theorem claim4_witness :
    (mkUSM true envUnset "file-key").storage_configs = [] ∧
      upload_file true oracleOk (mkUSM true envUnset "file-key") "f" =
        (mkUSM true envUnset "file-key", []) :=
  ⟨by decide, claim4 true oracleOk (mkUSM true envUnset "file-key") "f" (by decide)⟩

/-- Waiting joins every handle in order, regardless of which waits raise. -/
theorem waitLoop_map_fst (waitOk : Uploader → Bool) (us : List Uploader) :
    (waitLoop waitOk us).map Prod.fst = us := by
  induction us with
  | nil => rfl
  | cons u rest ih => simp [waitLoop, ih]

/-- C5 (counterexample): the claim says the aggregation callback tags every
result with the human-readable label `"AWS S3"` or `"Azure Blob Storage"`; but
when constructing the uploader throws (here: Blob auth via account key only,
which raises `ValueError`), the `except` clause reports the enum value
`"azure"`, which is neither label. -/
theorem claim5_counterexample :
    (upload_file true oracleOk (mkUSM true envKeyOnly "file-key") "f").2 =
        [("azure", false)] ∧
      ("azure" : String) ≠ "AWS S3" ∧
      ("azure" : String) ≠ "Azure Blob Storage" := by
  decide

/-- C5 (amended): during `upload_file`, if constructing or starting the
uploader for one provider throws, that provider is reported as failed through
the aggregation callback with the provider's mode value (`"s3"` or `"azure"`)
as the label — not the human-readable labels, which are used only by the
callbacks of uploads that actually started — and every remaining configured
provider is still attempted: independently of the other configs, each config
either contributes a failure event or its started uploader handle. -/
theorem claim5_amended (aa : Bool) (o : ExtOracle) (st : USMState) (fp : String)
    (c : StorageConfig) (hc : c ∈ st.storage_configs) :
    (∀ e, startOutcome aa o st.file_key c = .error e →
      (c.provider.value, false) ∈ (upload_file aa o st fp).2) ∧
    (∀ u, startOutcome aa o st.file_key c = .ok u →
      u ∈ (upload_file aa o st fp).1.upload_threads) := by
  rw [upload_file_eq]
  constructor
  · intro e he
    exact List.mem_filterMap.mpr ⟨c, hc, by simp [startFailEvent, he]⟩
  · intro u hu
    exact List.mem_append.mpr
      (Or.inr (List.mem_filterMap.mpr
        ⟨c, hc, by simp [startedUploader, hu, Except.toOption]⟩))

/-- C5 (amended, witness): the key-only Blob config fails to start and is
reported through the aggregation callback as `("azure", false)`. -/
theorem claim5_amended_witness :
    cfgKeyOnly ∈ (mkUSM true envKeyOnly "file-key").storage_configs ∧
      startOutcome true oracleOk (mkUSM true envKeyOnly "file-key").file_key cfgKeyOnly =
        .error (.valueError azureAuthErrorMsg) ∧
      ("azure", false) ∈ (upload_file true oracleOk (mkUSM true envKeyOnly "file-key") "f").2 :=
  ⟨by decide, rfl,
   (claim5_amended true oracleOk (mkUSM true envKeyOnly "file-key") "f" cfgKeyOnly
      (by decide)).1 (.valueError azureAuthErrorMsg) rfl⟩

/-- C6 (counterexample): the claim says `wait_for_uploads` waits on exactly
the handles created by the most recent `upload_file` call; but `upload_threads`
is never cleared, so after a second call it holds two handles, while the most
recent call created only the one-element suffix, and `wait_for_uploads` waits
on both. -/
theorem claim6_counterexample :
    stS3One.upload_threads.length = 1 ∧
      stS3Two.upload_threads.length = 2 ∧
      (wait_for_uploads (fun _ => true) stS3Two).map Prod.fst = stS3Two.upload_threads ∧
      (wait_for_uploads (fun _ => true) stS3Two).map Prod.fst ≠
        stS3Two.upload_threads.drop stS3One.upload_threads.length := by
  decide

/-- C6 (amended): `wait_for_uploads` calls `wait_for_upload` on exactly the
handles accumulated in `upload_threads` — the handles created by all
`upload_file` calls on this coordinator, since the list is never cleared —
each exactly once and in order, an error raised while waiting on one handle
(any `waitOk` valuation) does not prevent waiting on the remaining handles,
and each `upload_file` call appends its newly created handles. -/
theorem claim6_amended (waitOk : Uploader → Bool) (aa : Bool) (o : ExtOracle)
    (st : USMState) (fp : String) :
    (wait_for_uploads waitOk st).map Prod.fst = st.upload_threads ∧
      (upload_file aa o st fp).1.upload_threads =
        st.upload_threads ++ st.storage_configs.filterMap (startedUploader aa o st.file_key) := by
  refine ⟨waitLoop_map_fst waitOk st.upload_threads, ?_⟩
  rw [upload_file_eq]

/-- C7: `AzureFileUploader` construction selects the authentication strategy
by priority — managed identity when the account name is truthy and both the
connection string and the account key are falsy; otherwise connection string
when truthy; otherwise account key when both the account name and the key are
truthy; otherwise it fails with a `ValueError`, and that failure propagates
synchronously out of the constructor (with the SDK available) before any
background operation starts. -/
theorem claim7 (san cs ak : Option String) :
    (truthy san = true ∧ truthy cs = false ∧ truthy ak = false →
      selectAuthStrategy san cs ak = .ok .managedIdentity) ∧
    (truthy cs = true → selectAuthStrategy san cs ak = .ok .connectionString) ∧
    (truthy cs = false ∧ truthy san = true ∧ truthy ak = true →
      selectAuthStrategy san cs ak = .ok .accountKey) ∧
    (¬(truthy san = true ∧ truthy cs = false ∧ truthy ak = false) ∧
        truthy cs = false ∧ ¬(truthy san = true ∧ truthy ak = true) →
      selectAuthStrategy san cs ak = .error (.valueError azureAuthErrorMsg)) ∧
    (∀ (o : ExtOracle) (container blob : String) (e : Exc),
      selectAuthStrategy san cs ak = .error e →
      AzureFileUploader.construct true o container blob san cs ak = .error e) := by
  cases hs : truthy san <;> cases hc : truthy cs <;> cases ha : truthy ak <;>
    simp [selectAuthStrategy, AzureFileUploader.construct, hs, hc, ha]

/-- C7 (witness): an account name alone selects managed identity. -/
theorem claim7_witness :
    (truthy (some "acct") = true ∧ truthy (none : Option String) = false ∧
        truthy (none : Option String) = false) ∧
      selectAuthStrategy (some "acct") none none = .ok .managedIdentity :=
  ⟨by decide, (claim7 (some "acct") none none).1 (by decide)⟩

/-- C8: every run of the background upload worker with a callback supplied
invokes the callback exactly once — with `true` exactly when the local file
exists and the SDK transfer succeeds, with `false` when the file is missing or
any error occurs — and the worker's result is total: no exception escapes. -/
theorem claim8 (fileExists : Bool) (sdkUpload : Except Exc Unit) :
    (upload_worker fileExists sdkUpload).length = 1 ∧
      (upload_worker fileExists sdkUpload = [true] ↔
        fileExists = true ∧ sdkUpload = .ok ()) ∧
      (upload_worker fileExists sdkUpload = [false] ↔
        fileExists = false ∨ sdkUpload ≠ .ok ()) := by
  cases fileExists <;> rcases sdkUpload with _ | e <;>
    simp [upload_worker, upload_worker_body]

/-- C9: after any nonempty sequence of `upload_file` calls under a fixed
external oracle, `get_azure_blob_url` returns an absent value when no Blob
provider is configured (so no Blob upload was ever attempted); when the Blob
upload started, it returns the blob's URL when URL construction succeeds and
an absent value — not a propagated error — when URL construction raises; and
when the Blob uploader's construction failed in every call, it returns an
absent value. -/
theorem claim9 (aa : Bool) (env : Env) (fk : String) (o : ExtOracle)
    (urlOk : Bool) (fps : List String) (hfps : fps ≠ []) :
    ((∀ c ∈ load_storage_configs aa env, c.provider ≠ .AZURE_BLOB) →
      get_azure_blob_url urlOk (run_calls aa o (mkUSM aa env fk) fps) = none) ∧
    (∀ c ∈ load_storage_configs aa env, ∀ u,
      startOutcome aa o fk c = .ok (.azure u) →
      get_azure_blob_url urlOk (run_calls aa o (mkUSM aa env fk) fps) =
        if urlOk then some u.blobUrl else none) ∧
    (∀ c ∈ load_storage_configs aa env, c.provider = .AZURE_BLOB → ∀ e,
      startOutcome aa o fk c = .error e →
      get_azure_blob_url urlOk (run_calls aa o (mkUSM aa env fk) fps) = none) := by
  obtain ⟨hk, hcfg, haz⟩ := run_calls_state aa o env fk fps hfps
  have hCsplit : load_storage_configs aa env =
      (s3Part env).filter StorageConfig.validate ++
        (azPart aa env).filter StorageConfig.validate := by
    rw [load_storage_configs, List.filter_append]
  have hs3all : ∀ c ∈ (s3Part env).filter StorageConfig.validate,
      c.provider = .AWS_S3 :=
    fun c hcf => (s3Part_mem env c (List.mem_filter.mp hcf).1).1
  have hazfold : azUpdateList aa o fk (load_storage_configs aa env) none =
      azUpdateList aa o fk ((azPart aa env).filter StorageConfig.validate) none := by
    rw [hCsplit, azUpdateList_append,
      azUpdateList_all_s3 aa o fk _ none hs3all]
  refine ⟨?_, ?_, ?_⟩
  · intro h
    have hempty : (azPart aa env).filter StorageConfig.validate = [] := by
      rw [List.eq_nil_iff_forall_not_mem]
      intro c hcf
      have hmem : c ∈ load_storage_configs aa env := by
        rw [hCsplit]; exact List.mem_append.mpr (Or.inr hcf)
      exact h c hmem (azPart_mem aa env c (List.mem_filter.mp hcf).1).1
    have hnone : (run_calls aa o (mkUSM aa env fk) fps).azure_uploader = none := by
      rw [haz, hazfold, hempty]; rfl
    simp [get_azure_blob_url, hnone]
  · intro c hc u hu
    have hprov : c.provider = .AZURE_BLOB := by
      cases hp : c.provider with
      | AZURE_BLOB => rfl
      | AWS_S3 =>
        simp only [startOutcome, hp] at hu
        cases h2 : FileUploader.construct o c.config fk <;>
          rw [h2] at hu <;> simp [Except.map] at hu
    have hcz : c ∈ (azPart aa env).filter StorageConfig.validate := by
      rcases List.mem_append.mp (by rw [← hCsplit]; exact hc) with h1 | h1
      · have hps3 := (s3Part_mem env c (List.mem_filter.mp h1).1).1
        rw [hprov] at hps3
        exact absurd hps3 (by decide)
      · exact h1
    have hsingle : azPart aa env = [c] :=
      (azPart_mem aa env c (List.mem_filter.mp hcz).1).2.2
    have hazf : (azPart aa env).filter StorageConfig.validate = [c] := by
      rw [hsingle]
      simp [(List.mem_filter.mp hcz).2]
    have hup : (run_calls aa o (mkUSM aa env fk) fps).azure_uploader = some u := by
      rw [haz, hazfold, hazf]
      simp [azUpdateList, azStep, hu]
    cases urlOk <;>
      simp [get_azure_blob_url, hup, AzureFileUploader.get_blob_url]
  · intro c hc hprov e he
    have hcz : c ∈ (azPart aa env).filter StorageConfig.validate := by
      rcases List.mem_append.mp (by rw [← hCsplit]; exact hc) with h1 | h1
      · have hps3 := (s3Part_mem env c (List.mem_filter.mp h1).1).1
        rw [hprov] at hps3
        exact absurd hps3 (by decide)
      · exact h1
    have hsingle : azPart aa env = [c] :=
      (azPart_mem aa env c (List.mem_filter.mp hcz).1).2.2
    have hazf : (azPart aa env).filter StorageConfig.validate = [c] := by
      rw [hsingle]
      simp [(List.mem_filter.mp hcz).2]
    have hnone : (run_calls aa o (mkUSM aa env fk) fps).azure_uploader = none := by
      rw [haz, hazfold, hazf]
      simp [azUpdateList, azStep, he]
    simp [get_azure_blob_url, hnone]

/-- C9 (witness): with a managed-identity Blob config, one `upload_file` call
retains the Azure uploader and `get_azure_blob_url` returns the blob URL
containing the configured container and the file key. -/
theorem claim9_witness :
    (["f"] : List String) ≠ [] ∧
      cfgAzManaged ∈ load_storage_configs true envAzManaged ∧
      startOutcome true oracleOk "file-key" cfgAzManaged = .ok (.azure upAzManaged) ∧
      get_azure_blob_url true
          (run_calls true oracleOk (mkUSM true envAzManaged "file-key") ["f"]) =
        some "https://acct.blob.core.windows.net/recordings/file-key" := by
  refine ⟨by decide, by decide, rfl, ?_⟩
  have h := (claim9 true envAzManaged "file-key" oracleOk true ["f"] (by decide)).2.1
    cfgAzManaged (by decide) upAzManaged rfl
  exact h.trans (by decide)

/-- C10: with a container name and an account key but no account name and no
connection string, the Configuration Loader accepts the Blob config as valid,
yet constructing the `AzureFileUploader` for it raises `ValueError`
synchronously, so `upload_file` reports the provider as failed through the
aggregation callback while the coordinator state is unchanged — in particular
no uploader handle is created and no background upload starts. -/
theorem claim10 :
    load_storage_configs true envKeyOnly = [cfgKeyOnly] ∧
      cfgKeyOnly.validate = true ∧
      AzureFileUploader.construct true oracleOk "recordings" "file-key"
          none none (some "key123") = .error (.valueError azureAuthErrorMsg) ∧
      upload_file true oracleOk (mkUSM true envKeyOnly "file-key") "f" =
        (mkUSM true envKeyOnly "file-key", [("azure", false)]) ∧
      (mkUSM true envKeyOnly "file-key").upload_threads = [] :=
  ⟨by decide, by decide, rfl, by decide, by decide⟩

end Attendee
